import Mathlib

/-!
# Verification of the StagScribe compilation pipeline

A shallow embedding of the StagScribe scene-description compiler
(`src/stagscribe/...`): the value/unit system, the expression evaluator,
the statement resolver (variables, color palettes, templates, for-loop
unrolling), the layout engine, and the gradient bookkeeping of the SVG
emitter.

Conventions used throughout:
* Python `float` is modelled as `ℚ` — every numeric literal appearing in
  the verified claims has an exact decimal value, and the operations
  involved are field operations.
* Python exceptions (`ResolveError`, `ValueError`) are modelled with
  `Except String`.
* Python `dict` objects used as lookup tables with `d.get(k)` /
  `d[k] = v` / `d.pop(k, None)` are modelled as functions
  `String → Option α`.
* Deep copies (`copy.deepcopy`) are identities here, because all Lean
  values are immutable; in-place mutation of an element is modelled by
  returning the updated element.
-/

set_option maxHeartbeats 1600000

deriving instance DecidableEq for Except

namespace StagScribe

/-- Returns `true` exactly when an `Except` computation failed (a raised
`ResolveError` / `ValueError` in the Python source). -/
def exceptIsError {α : Type} : Except String α → Bool
  | .error _ => true
  | .ok _ => false

/-- Python truthiness of an optional string (`if s:`): `None` and the
empty string are falsy. -/
def optStrTruthy : Option String → Bool
  | none => false
  | some s => !s.isEmpty

/-- Models `d[k] = v` on a `dict` represented as a function. -/
def updateFn {α : Type} (m : String → Option α) (k : String) (v : α) :
    String → Option α :=
  fun n => if n = k then some v else m n

/-! ## Value / unit system — `language/units.py`
(an identical `Value` dataclass with the same `to_pixels` body appears in
`language/ast_nodes.py`; both are embedded once here). -/

/-- Source `Value`: a numeric value with an optional unit. -/
structure Value where
  number : ℚ
  unit : Option String := none
deriving DecidableEq, Repr

/-- Source `_PX_PER_UNIT`: pixels per unit at 96 DPI. -/
def _PX_PER_UNIT : List (String × ℚ) :=
  [("pixels", 1), ("px", 1), ("cm", 377953 / 10000), ("mm", 377953 / 100000),
   ("meters", 377953 / 100), ("m", 377953 / 100), ("in", 96),
   ("pt", 13333 / 10000)]

/-- Source `_NATURAL_FRACTIONS`: natural sizes as fraction of container.
(Python's `1.0 / 3.0` is modelled as the exact `1 / 3`.) -/
def _NATURAL_FRACTIONS : List (String × ℚ) :=
  [("tiny", 1 / 10), ("small", 1 / 4), ("medium", 1 / 2), ("large", 3 / 4),
   ("huge", 9 / 10), ("full", 1), ("half", 1 / 2), ("third", 1 / 3),
   ("quarter", 1 / 4)]

/-- Source `Value.to_pixels`: convert to pixels, optionally against a container
size.  `raise ValueError` is modelled as `Except.error`. -/
def Value.to_pixels (v : Value) (container_size : Option ℚ := none) :
    Except String ℚ :=
  match v.unit with
  | none => .ok v.number
  | some u =>
    if u = "pixels" ∨ u = "px" then .ok v.number
    else if u = "%" then
      match container_size with
      | none => .error "Cannot resolve percentage without container size"
      | some c => .ok (v.number / 100 * c)
    else
      match List.lookup u _NATURAL_FRACTIONS with
      | some f =>
        match container_size with
        | none => .error ("Cannot resolve " ++ u ++ " without container size")
        | some c => .ok (f * c)
      | none =>
        match List.lookup u _PX_PER_UNIT with
        | some k => .ok (v.number * k)
        | none => .error ("Unknown unit: " ++ u)

/-! ## Color resolution -/

/-- Modelled from the spec: `language/colors.py` is not among the provided
sources (only its tests and its import in `resolver.py` are).  Per the
spec, `resolve_color` resolves CSS color names (case-insensitively) and
friendly aliases to canonical hex strings, passes hex colors through in
lowercase and `rgb(...)` strings through verbatim, maps `none` /
`transparent` to `"none"`, and returns nothing for unknown names.  The
name table is restricted to the colors named in the spec and tests. -/
def resolve_color (c : String) : Option String :=
  let lc := c.toLower
  if lc = "none" ∨ lc = "transparent" then some "none"
  else if c.startsWith "#" then
    if ((c.drop 1).toList.all fun ch =>
          ch.isDigit || ("abcdefABCDEF".toList.contains ch)) &&
        ((c.length = 4) || (c.length = 7)) then
      some lc
    else none
  else if c.startsWith "rgb" then some c
  else
    List.lookup lc
      [("red", "#FF0000"), ("blue", "#0000FF"), ("green", "#008000"),
       ("white", "#FFFFFF"), ("black", "#000000"), ("gray", "#808080"),
       ("silver", "#C0C0C0"), ("light gray", "#D3D3D3"),
       ("dark gray", "#A9A9A9"), ("sky blue", "#87CEEB")]

/-! ## AST — `language/ast_nodes.py`
Source line/column fields (`line`, `column`), used only for diagnostics,
are omitted. -/

/-- Source `Expr`: expression AST nodes (`LiteralExpr`, `VarRefExpr`,
`BinaryExpr`, `UnaryExpr`). -/
inductive Expr where
  | lit : Value → Expr
  | varRef : String → Expr
  | binary : String → Expr → Expr → Expr
  | unary : Expr → Expr
deriving DecidableEq, Repr

/-- Source `GradientFill`: linear gradient fill specification. -/
structure GradientFill where
  color1 : String
  color2 : String
  direction : String := "vertical"
deriving DecidableEq, Repr

/-- A field that statically holds `Value | None` in the dataclass but may
dynamically hold an `Expr` before resolution (the resolver dispatches with
`isinstance(field, Expr)` / `isinstance(field, Value)`). -/
inductive NumField where
  | ex : Expr → NumField
  | val : Value → NumField
deriving DecidableEq, Repr

/-- Fields `opacity` / `rotate`: dynamically `Expr`, `Value`, or a plain float. -/
inductive ScalarField where
  | ex : Expr → ScalarField
  | val : Value → ScalarField
  | num : ℚ → ScalarField
deriving DecidableEq, Repr

/-- Field `fill`: dynamically a color string or (via placement overrides) a
`GradientFill`. -/
inductive FillField where
  | str : String → FillField
  | grad : GradientFill → FillField
deriving DecidableEq, Repr

/-- Source `Position`: position specification for an element. -/
structure Position where
  x : Option NumField := none
  y : Option NumField := none
  anchor : Option String := none
  relative : Option String := none
  reference : Option String := none
  ref_anchor : Option String := none
  gap : Option NumField := none
  wall : Option String := none
  mesh_ref : Option String := none
deriving DecidableEq, Repr

/-- Source `StrokeStyle`: stroke properties. -/
structure StrokeStyle where
  color : Option String := none
  width : Option NumField := none
  dash : Option String := none
deriving DecidableEq, Repr

/-- Source `TextStyle`: text-specific style properties. -/
structure TextStyle where
  font : Option String := none
  size : Option NumField := none
  color : Option String := none
  weight : Option String := none
  style : Option String := none
  align : Option String := none
deriving DecidableEq, Repr

/-- The non-recursive fields of `Element`. -/
structure ElementData where
  element_type : String
  name : Option String := none
  position : Option Position := none
  width : Option NumField := none
  height : Option NumField := none
  radius : Option NumField := none
  fill : Option FillField := none
  gradient : Option GradientFill := none
  stroke : Option StrokeStyle := none
  opacity : Option ScalarField := none
  rounded : Option NumField := none
  rotate : Option ScalarField := none
  teeth : Option Int := none
  tooth_module : Option ℚ := none
  text_style : Option TextStyle := none
  text_content : Option String := none
  line_from : Option (NumField × NumField) := none
  line_to : Option (NumField × NumField) := none
  points : Option (List (NumField × NumField)) := none
  path_data : Option String := none
  src : Option String := none
  background : Option String := none
deriving DecidableEq, Repr

/-- Source `Element`: a scene-tree node — its scalar fields plus its owned
children. -/
inductive Element where
  | mk : ElementData → List Element → Element
deriving Repr

/-- The scalar fields of an element. -/
def Element.data : Element → ElementData
  | .mk d _ => d

/-- The child elements. -/
def Element.children : Element → List Element
  | .mk _ cs => cs

/-- Source `ColorAssignment`: a single `name = color` entry of a `colors:`
block. -/
structure ColorAssignment where
  name : String
  color : String
  is_var_ref : Bool := false
deriving DecidableEq, Repr

/-- The values a `place` statement's property-override dict can hold
(`fill` / `background` take color strings or gradients, `stroke` takes a
`StrokeStyle`, `width` / `height` take values or expressions). -/
inductive PropVal where
  | str : String → PropVal
  | grad : GradientFill → PropVal
  | strokeStyle : StrokeStyle → PropVal
  | numF : NumField → PropVal
deriving DecidableEq, Repr

/-- Source `PlaceStatement`: template instantiation. -/
structure PlaceData where
  template_name : String
  instance_name : Option String := none
  props : List (String × PropVal) := []
  position : Option Position := none
  scale : Option Expr := none
  rotate_expr : Option Expr := none
deriving DecidableEq, Repr

/-- Source `Statement`: the pre-resolution statement sum type.  `ForStatement`
itself is absent from the provided `ast_nodes.py` (only its import and
use in `resolver.py` are); its fields follow the spec: loop variable,
start/end/step expressions, body statements. -/
inductive Stmt where
  | element : Element → Stmt
  | isStmt : String → Expr → Stmt
  | colorsBlock : List ColorAssignment → Stmt
  | defineBlock : String → List Element → Stmt
  | placeStmt : PlaceData → Stmt
  | forStmt : String → Expr → Expr → Option Expr → List Stmt → Stmt
deriving Repr

/-- Source `Document`: the root AST node. -/
structure Document where
  statements : List Stmt := []
deriving Repr

/-- Source `Document.elements`: only the `Element` statements, in order. -/
def Document.elements (doc : Document) : List Element :=
  doc.statements.filterMap fun s =>
    match s with
    | .element el => some el
    | _ => none

/-- Source `Document.canvas`: the first element whose type is `canvas`. -/
def Document.canvas (doc : Document) : Option Element :=
  doc.elements.find? fun el => el.data.element_type = "canvas"

/-- Source `True` exactly when the statement is a plain `Element`. -/
def stmtIsElement : Stmt → Bool
  | .element _ => true
  | _ => false

/-! ## Resolver — `resolver/resolver.py` -/

namespace Resolver

/-- Source `_MAX_LOOP_ITERATIONS`. -/
def _MAX_LOOP_ITERATIONS : Nat := 10000

/-- Source `_MAX_LOOP_DEPTH`. -/
def _MAX_LOOP_DEPTH : Nat := 5

/-- The session state of a `Resolver` instance: variable table,
color-variable table, template table (`DefineBlock` bodies), and the
current loop-nesting depth. -/
structure ResolverState where
  /-- `self.variables` (the name `variables` is a reserved token in
  Lean). -/
  vars : String → Option Value
  colorVars : String → Option String
  templates : String → Option (List Element)
  loopDepth : Nat

/-- Source `Resolver.__init__`: empty tables, depth 0. -/
def initState : ResolverState :=
  { vars := fun _ => none, colorVars := fun _ => none,
    templates := fun _ => none, loopDepth := 0 }

/-- Source `_check_additive_units`: for `+`/`-`, both operands must have the same
unit or one must be unitless. -/
def _check_additive_units (left right : Value) : Except String (Option String) :=
  match left.unit, right.unit with
  | none, none => .ok none
  | none, some u => .ok (some u)
  | some u, none => .ok (some u)
  | some u1, some u2 =>
    if u1 = u2 then .ok (some u1)
    else .error ("Cannot add/subtract values with different units: " ++
      u1 ++ " and " ++ u2)

/-- Source `_check_multiplicative_units`: for `*`/`/`, at most one operand may
carry a unit. -/
def _check_multiplicative_units (left right : Value) :
    Except String (Option String) :=
  match left.unit, right.unit with
  | none, none => .ok none
  | none, some u => .ok (some u)
  | some u, none => .ok (some u)
  | some u1, some u2 =>
    .error ("Cannot multiply/divide values with units on both sides: " ++
      u1 ++ " and " ++ u2)

/-- Source `_eval_binary`: apply a binary arithmetic operator to two values,
enforcing the unit algebra; division by a zero number is an error. -/
def _eval_binary (op : String) (left right : Value) : Except String Value :=
  if op = "+" then do
    let unit ← _check_additive_units left right
    .ok { number := left.number + right.number, unit := unit }
  else if op = "-" then do
    let unit ← _check_additive_units left right
    .ok { number := left.number - right.number, unit := unit }
  else if op = "*" then do
    let unit ← _check_multiplicative_units left right
    .ok { number := left.number * right.number, unit := unit }
  else if op = "/" then
    if right.number = 0 then .error "Division by zero"
    else do
      let unit ← _check_multiplicative_units left right
      .ok { number := left.number / right.number, unit := unit }
  else .error ("Unknown operator: " ++ op)

/-- Source `_eval_expr`: evaluate an expression to a concrete `Value` against the
current variable table. -/
def _eval_expr (st : ResolverState) : Expr → Except String Value
  | .lit v => .ok v
  | .varRef name =>
    match st.vars name with
    | none => .error ("Undefined variable " ++ name)
    | some v => .ok v
  | .unary e => do
    let operand ← _eval_expr st e
    .ok { number := -operand.number, unit := operand.unit }
  | .binary op l r => do
    let left ← _eval_expr st l
    let right ← _eval_expr st r
    _eval_binary op left right

/-- Source `_resolve_color_string`: resolve a color string, handling
`$color:name` references (color-table lookup, then CSS-name fallback). -/
def _resolve_color_string (st : ResolverState) (color : String) :
    Except String String :=
  if color.startsWith "$color:" then
    let var_name := color.drop 7
    match st.colorVars var_name with
    | some resolved => .ok resolved
    | none =>
      match resolve_color var_name with
      | some css => .ok css
      | none => .error ("Undefined color variable " ++ var_name)
  else .ok color

/-- Source `_resolve_value_field`: resolve a field that may be `Value`, `Expr`,
or absent. -/
def _resolve_value_field (st : ResolverState) :
    Option NumField → Except String (Option Value)
  | none => .ok none
  | some (.ex e) => do
    let v ← _eval_expr st e
    .ok (some v)
  | some (.val v) => .ok (some v)

/-- The `Option NumField` form of a resolved field (Python stores the
returned `Value | None` back into the same attribute). -/
def reval (o : Option Value) : Option NumField := o.map .val

mutual

/-- Source `_resolve_element`: rewrite every expression/symbolic-color field of
an element to a concrete value/string, recursing into children. -/
def _resolve_element (st : ResolverState) (el : Element) :
    Except String Element :=
  match el with
  | .mk d children => do
    let width ← _resolve_value_field st d.width
    let height ← _resolve_value_field st d.height
    let radius ← _resolve_value_field st d.radius
    let rounded ← _resolve_value_field st d.rounded
    let opacity ←
      match d.opacity with
      | some (.ex e) => do
        let v ← _eval_expr st e
        pure (some (.num v.number))
      | some (.val v) => pure (some (ScalarField.num v.number))
      | o => pure o
    let rotate ←
      match d.rotate with
      | some (.ex e) => do
        let v ← _eval_expr st e
        pure (some (ScalarField.num v.number))
      | o => pure o
    let fill ←
      match d.fill with
      | some (.str s) => do
        let c ← _resolve_color_string st s
        pure (some (FillField.str c))
      | o => pure o
    let background ←
      match d.background with
      | some s => do
        let c ← _resolve_color_string st s
        pure (some c)
      | none => pure none
    let stroke ←
      match d.stroke with
      | some sk => do
        let color ←
          match sk.color with
          | some s => do
            let c ← _resolve_color_string st s
            pure (some c)
          | none => pure none
        let w ← _resolve_value_field st sk.width
        pure (some { sk with color := color, width := reval w })
      | none => pure none
    let position ←
      match d.position with
      | some pos => do
        let px ← _resolve_value_field st pos.x
        let py ← _resolve_value_field st pos.y
        let pgap ← _resolve_value_field st pos.gap
        pure (some { pos with x := reval px, y := reval py, gap := reval pgap })
      | none => pure none
    let text_style ←
      match d.text_style with
      | some ts => do
        let size ← _resolve_value_field st ts.size
        let color ←
          match ts.color with
          | some s => do
            let c ← _resolve_color_string st s
            pure (some c)
          | none => pure none
        pure (some { ts with size := reval size, color := color })
      | none => pure none
    let line_from ←
      match d.line_from with
      | some (a, b) => do
        let lf0 ← _resolve_value_field st (some a)
        let lf1 ← _resolve_value_field st (some b)
        match lf0, lf1 with
        | some x, some y => pure (some (NumField.val x, NumField.val y))
        | _, _ => pure (some (a, b))
      | none => pure none
    let line_to ←
      match d.line_to with
      | some (a, b) => do
        let lt0 ← _resolve_value_field st (some a)
        let lt1 ← _resolve_value_field st (some b)
        match lt0, lt1 with
        | some x, some y => pure (some (NumField.val x, NumField.val y))
        | _, _ => pure (some (a, b))
      | none => pure none
    let points ←
      match d.points with
      | some ps => do
        let resolved ← resolvePoints st ps
        pure (some resolved)
      | none => pure none
    let cs ← _resolve_children st children
    pure (.mk
      { d with width := reval width, height := reval height,
               radius := reval radius, rounded := reval rounded,
               opacity := opacity, rotate := rotate, fill := fill,
               background := background, stroke := stroke,
               position := position, text_style := text_style,
               line_from := line_from, line_to := line_to,
               points := points }
      cs)

/-- The polygon-point loop of `_resolve_element`: resolve each coordinate
pair, skipping pairs that do not resolve. -/
def resolvePoints (st : ResolverState) :
    List (NumField × NumField) → Except String (List (NumField × NumField))
  | [] => .ok []
  | (a, b) :: rest => do
    let px ← _resolve_value_field st (some a)
    let py ← _resolve_value_field st (some b)
    let tail ← resolvePoints st rest
    match px, py with
    | some x, some y => .ok ((NumField.val x, NumField.val y) :: tail)
    | _, _ => .ok tail

/-- The child-recursion loop of `_resolve_element`. -/
def _resolve_children (st : ResolverState) :
    List Element → Except String (List Element)
  | [] => .ok []
  | c :: rest => do
    let c' ← _resolve_element st c
    let rest' ← _resolve_children st rest
    .ok (c' :: rest')

end

/-- Source `_handle_is`: evaluate the expression and bind the result. -/
def _handle_is (st : ResolverState) (name : String) (e : Expr) :
    Except String ResolverState := do
  let value ← _eval_expr st e
  .ok { st with vars := updateFn st.vars name value }

/-- Source `_handle_colors`: resolve each assignment's CSS name (keeping the
original string when unknown) and bind it in the color-variable table. -/
def _handle_colors (st : ResolverState) :
    List ColorAssignment → ResolverState
  | [] => st
  | a :: rest =>
    let color :=
      match resolve_color a.color with
      | some resolved => resolved
      | none => a.color
    _handle_colors
      { st with colorVars := updateFn st.colorVars a.name color } rest

/-- Source `_handle_define`: record the template body (evaluated fresh at each
placement). -/
def _handle_define (st : ResolverState) (name : String)
    (body : List Element) : ResolverState :=
  { st with templates := updateFn st.templates name body }

/-- Source `_apply_scale`: multiply width/height/radius by the scale factor when
they hold concrete `Value`s. -/
def _apply_scale (el : Element) (scale_val : Value) : Element :=
  match el with
  | .mk d cs =>
    let factor := scale_val.number
    let width :=
      match d.width with
      | some (.val v) => some (NumField.val { v with number := v.number * factor })
      | o => o
    let height :=
      match d.height with
      | some (.val v) => some (NumField.val { v with number := v.number * factor })
      | o => o
    let radius :=
      match d.radius with
      | some (.val v) => some (NumField.val { v with number := v.number * factor })
      | o => o
    .mk { d with width := width, height := height, radius := radius } cs

/-- Source `_apply_overrides`: apply a placement's property overrides to an
element, in dict insertion order (`fill`, `stroke`, `width`, `height`,
`background`; other keys are ignored). -/
def _apply_overrides (st : ResolverState) (el : Element)
    (props : List (String × PropVal)) : Except String Element :=
  match props with
  | [] => .ok el
  | (key, v) :: rest => do
    let el' ←
      match el with
      | .mk d cs =>
        if key = "fill" then
          match v with
          | .str s => do
            let c ← _resolve_color_string st s
            pure (Element.mk { d with fill := some (.str c) } cs)
          | .grad g => pure (Element.mk { d with fill := some (.grad g) } cs)
          | _ => pure el
        else if key = "stroke" then
          match v with
          | .strokeStyle sk => pure (Element.mk { d with stroke := some sk } cs)
          | _ => pure el
        else if key = "width" then
          match v with
          | .numF f => pure (Element.mk { d with width := some f } cs)
          | _ => pure el
        else if key = "height" then
          match v with
          | .numF f => pure (Element.mk { d with height := some f } cs)
          | _ => pure el
        else if key = "background" then
          match v with
          | .str s => do
            let c ← _resolve_color_string st s
            pure (Element.mk { d with background := some c } cs)
          | _ => pure el
        else pure el
    _apply_overrides st el' rest

/-- The scale loop of `_handle_place`'s group branch. -/
def scaleChildren (scale_val : Value) : List Element → List Element
  | [] => []
  | c :: rest => _apply_scale c scale_val :: scaleChildren scale_val rest

/-- Sets `rotate := val.number` on the wrapped representation. -/
def setRotate (el : Element) (q : ℚ) : Element :=
  match el with
  | .mk d cs => .mk { d with rotate := some (.num q) } cs

/-- Source `_handle_place`: look up the template, deep-copy its body, apply
instance name / position / overrides / scale / rotation, and resolve the
result as an ordinary element (wrapping multi-element bodies in a
synthetic group). -/
def _handle_place (st : ResolverState) (p : PlaceData) :
    Except String (List Element) :=
  match st.templates p.template_name with
  | none => .error ("Unknown template " ++ p.template_name)
  | some body =>
    match body with
    | [el0] => do
      let el1 :=
        if optStrTruthy p.instance_name then
          match el0 with
          | .mk d cs => Element.mk { d with name := p.instance_name } cs
        else el0
      let el2 :=
        match p.position with
        | some pos =>
          match el1 with
          | .mk d cs => Element.mk { d with position := some pos } cs
        | none => el1
      let el3 ← _apply_overrides st el2 p.props
      let el4 ←
        match p.scale with
        | some sc => do
          let sv ← _eval_expr st sc
          pure (_apply_scale el3 sv)
        | none => pure el3
      let el5 ←
        match p.rotate_expr with
        | some re => do
          let v ← _eval_expr st re
          pure (setRotate el4 v.number)
        | none => pure el4
      let r ← _resolve_element st el5
      .ok [r]
    | _ => do
      let group := Element.mk
        { element_type := "group", name := p.instance_name,
          position := p.position } body
      let g1 ← _apply_overrides st group p.props
      let g2 ←
        match p.scale with
        | some sc => do
          let sv ← _eval_expr st sc
          match g1 with
          | .mk d cs => pure (Element.mk d (scaleChildren sv cs))
        | none => pure g1
      let g3 ←
        match p.rotate_expr with
        | some re => do
          let v ← _eval_expr st re
          pure (setRotate g2 v.number)
        | none => pure g2
      let r ← _resolve_element st g3
      .ok [r]

/-! ### Loop-body string interpolation -/

/-- Renders `str(int(n)) if n == int(n) else str(n)`: integer-valued numbers
render without a decimal point.  (For non-integral numbers Python prints
the float's decimal representation; the rational's representation stands
in for it here — no verified claim exercises that branch.) -/
def renderVarNumber (q : ℚ) : String :=
  if q.den = 1 then toString q.num else toString q

/-- A `\w` word character of the `\x7b(\w+)\x7d` placeholder pattern. -/
def isWordChar (c : Char) : Bool :=
  c.isAlphanum || c = '_'

/-- Source `_interpolate_string` as a scan over the character list: at each
opening brace, try to match a word followed by a closing brace; replace a
match whose word is a bound variable by the rendered number, leave an
unbound placeholder verbatim (continuing after it), and rescan from the
next character when the pattern does not match.  The scan consumes at
least one character per step but not always the list head, so it carries
a step allowance that the wrapper sets to the list length (never
exhausted from there). -/
def _interp_chars_go (vars : String → Option Value) :
    Nat → List Char → List Char
  | 0, _ => []
  | _, [] => []
  | fuel + 1, c :: rest =>
    if c = '{' then
      let word := rest.takeWhile isWordChar
      match rest.dropWhile isWordChar with
      | '}' :: rest' =>
        if word.isEmpty then c :: _interp_chars_go vars fuel rest
        else
          match vars (String.mk word) with
          | some v =>
            (renderVarNumber v.number).toList ++ _interp_chars_go vars fuel rest'
          | none => c :: word ++ '}' :: _interp_chars_go vars fuel rest'
      | _ => c :: _interp_chars_go vars fuel rest
    else c :: _interp_chars_go vars fuel rest

/-- Source `_interpolate_string`: replace `\x7bvar_name\x7d` with the current
value of the variable. -/
def _interpolate_string (vars : String → Option Value) (s : String) : String :=
  String.mk (_interp_chars_go vars s.toList.length s.toList)

/-- Source `_interpolate_position`: interpolate the position's reference
string. -/
def _interpolate_position (vars : String → Option Value) (pos : Position) :
    Position :=
  match pos.reference with
  | some r => { pos with reference := some (_interpolate_string vars r) }
  | none => pos

mutual

/-- Source `_interpolate_names` on a single statement. -/
def _interp_stmt (vars : String → Option Value) : Stmt → Stmt
  | .element el => .element (_interp_element vars el)
  | .placeStmt p =>
    let iname :=
      match p.instance_name with
      | some n => some (_interpolate_string vars n)
      | none => none
    let pos :=
      match p.position with
      | some pos => some (_interpolate_position vars pos)
      | none => none
    .placeStmt { p with instance_name := iname, position := pos }
  | .forStmt v s e step body => .forStmt v s e step (_interp_stmts vars body)
  | s => s

/-- Source `_interpolate_names`: replace `\x7bvar\x7d` patterns in element names
and position references, recursing into children and loop bodies. -/
def _interp_stmts (vars : String → Option Value) : List Stmt → List Stmt
  | [] => []
  | s :: rest => _interp_stmt vars s :: _interp_stmts vars rest

/-- Source `_interpolate_names` on an element (name, position reference,
children). -/
def _interp_element (vars : String → Option Value) : Element → Element
  | .mk d cs =>
    let name :=
      match d.name with
      | some n => some (_interpolate_string vars n)
      | none => none
    let pos :=
      match d.position with
      | some p => some (_interpolate_position vars p)
      | none => none
    .mk { d with name := name, position := pos } (_interp_elements vars cs)

/-- Source `_interpolate_names` on a child list. -/
def _interp_elements (vars : String → Option Value) :
    List Element → List Element
  | [] => []
  | e :: rest => _interp_element vars e :: _interp_elements vars rest

end

/-! ### For-loop unrolling

The statement recursion is not structural (each loop iteration resolves
an interpolated copy of the loop body), so it is compiled by open
recursion: the per-level worker takes the resolver for loop bodies as a
function argument, and the tied-up resolver carries a loop-nesting
allowance of `_MAX_LOOP_DEPTH + 1` levels — the source's depth ceiling
fires strictly before the allowance could be exhausted. -/

/-- The constant `1e-9`, the tolerance of the unrolling `while` condition. -/
def _EPS : ℚ := 1 / 1000000000

/-- Computes `int(q)` for a nonnegative rational (Python truncation; for the
nonnegative arguments it is applied to, this is the floor). -/
def truncNat (q : ℚ) : Nat := q.num.toNat / q.den

/-- Source `step_n = 1.0 if end_n >= start_n else -1.0`: the default step. -/
def _default_step (start_n end_n : ℚ) : ℚ :=
  if end_n ≥ start_n then 1 else -1

/-- The step computation of `_handle_for` (evaluate and require unitless,
or default from the direction of the range). -/
def _step_value (st : ResolverState) (stepE : Option Expr)
    (start_n end_n : ℚ) : Except String ℚ :=
  match stepE with
  | some se => do
    let step_val ← _eval_expr st se
    if step_val.unit ≠ none then
      .error "For loop step value must be unitless"
    else .ok step_val.number
  | none => .ok (_default_step start_n end_n)

/-- Source `n_iters = int(abs(end_n - start_n) / abs(step_n)) + 1`. -/
def _n_iters (start_n end_n step_n : ℚ) : Nat :=
  truncNat (|end_n - start_n| / |step_n|) + 1

/-- The exact number of iterations the unrolling `while` loop performs:
`⌊(end_n + ε - i) / step_n⌋ + 1` for a positive step with the condition
initially true (the mirror image for a negative step), and 0 when the
condition fails at entry. -/
def _while_count (i end_n step_n : ℚ) : Nat :=
  if 0 < step_n then
    if i ≤ end_n + _EPS then truncNat ((end_n + _EPS - i) / step_n) + 1 else 0
  else if step_n < 0 then
    if end_n - _EPS ≤ i then
      truncNat ((i - (end_n - _EPS)) / (-step_n)) + 1
    else 0
  else 0

/-- The unrolling `while` loop of `_handle_for`: while the condition
holds, bind the loop variable to the current value, deep-copy and
interpolate the body, resolve it (through `recBody`, the statement
resolver for the body), and advance by the step.  The loop is compiled
with an iteration allowance that the caller sets to `_while_count`, the
loop's exact iteration count, so the zero-allowance exit coincides with
the condition turning false. -/
def _run_iters
    (recBody : ResolverState → List Stmt →
      Except String (List Element × ResolverState)) :
    Nat → ResolverState → String → ℚ → ℚ → ℚ → List Stmt →
    Except String (List Element × ResolverState)
  | 0, st, _, _, _, _, _ => .ok ([], st)
  | fuel + 1, st, var_name, i, end_n, step_n, body =>
    if (0 < step_n ∧ i ≤ end_n + _EPS) ∨ (step_n < 0 ∧ end_n - _EPS ≤ i)
    then do
      let st1 := { st with vars := updateFn st.vars var_name ⟨i, none⟩ }
      let body_copy := _interp_stmts st1.vars body
      let (els, st2) ← recBody st1 body_copy
      let (els2, st3) ←
        _run_iters recBody fuel st2 var_name (i + step_n) end_n step_n body
      .ok (els ++ els2, st3)
    else .ok ([], st)

/-- Source `_handle_for`: unroll a for loop into resolved elements — depth
check, bound evaluation and validation, iteration-count ceiling, then the
iteration loop, finally restoring the loop variable's previous binding
(or absence) and the nesting depth. -/
def _handle_for
    (recBody : ResolverState → List Stmt →
      Except String (List Element × ResolverState))
    (st : ResolverState) (var_name : String)
    (startE endE : Expr) (stepE : Option Expr) (body : List Stmt) :
    Except String (List Element × ResolverState) :=
  if st.loopDepth ≥ _MAX_LOOP_DEPTH then
    .error "Maximum loop nesting depth (5) exceeded"
  else do
    let start_val ← _eval_expr st startE
    let end_val ← _eval_expr st endE
    if start_val.unit ≠ none then
      .error "For loop from value must be unitless"
    else if end_val.unit ≠ none then
      .error "For loop to value must be unitless"
    else do
      let start_n := start_val.number
      let end_n := end_val.number
      let step_n ← _step_value st stepE start_n end_n
      if step_n = 0 then .error "For loop step cannot be zero"
      else if 0 < step_n ∧ end_n < start_n then
        .error "For loop step direction does not match range (positive step, end less than start)"
      else if step_n < 0 ∧ start_n < end_n then
        .error "For loop step direction does not match range (negative step, end greater than start)"
      else if _n_iters start_n end_n step_n > _MAX_LOOP_ITERATIONS then
        .error "For loop would exceed the maximum iteration count"
      else do
        let old_var := st.vars var_name
        let st1 := { st with loopDepth := st.loopDepth + 1 }
        let (els, st2) ← _run_iters recBody
          (_while_count start_n end_n step_n) st1 var_name start_n end_n
          step_n body
        .ok (els,
          { st2 with
            loopDepth := st2.loopDepth - 1,
            vars := fun n => if n = var_name then old_var else st2.vars n })

/-- Source `_resolve_statements` at one nesting level: dispatch on the statement
kind, appending the produced elements in encounter order and threading
the session state; for-loop bodies are resolved through `recBody`. -/
def _resolve_statements_go
    (recBody : ResolverState → List Stmt →
      Except String (List Element × ResolverState))
    (st : ResolverState) :
    List Stmt → Except String (List Element × ResolverState)
  | [] => .ok ([], st)
  | s :: rest =>
    match s with
    | .isStmt name e => do
      let st' ← _handle_is st name e
      _resolve_statements_go recBody st' rest
    | .colorsBlock assigns =>
      _resolve_statements_go recBody (_handle_colors st assigns) rest
    | .defineBlock name body =>
      _resolve_statements_go recBody (_handle_define st name body) rest
    | .placeStmt p => do
      let els ← _handle_place st p
      let (els2, st') ← _resolve_statements_go recBody st rest
      .ok (els ++ els2, st')
    | .forStmt v s0 e0 step body => do
      let (els, st1) ← _handle_for recBody st v s0 e0 step body
      let (els2, st2) ← _resolve_statements_go recBody st1 rest
      .ok (els ++ els2, st2)
    | .element el => do
      let el' ← _resolve_element st el
      let (els, st') ← _resolve_statements_go recBody st rest
      .ok (el' :: els, st')

/-- Source `_resolve_statements`, tied up with a loop-nesting allowance: level
`fuel + 1` resolves for-loop bodies at level `fuel`.  Starting from
`_MAX_LOOP_DEPTH + 1` with loop depth 0, the depth ceiling in
`_handle_for` fires strictly before the allowance reaches 0. -/
def _resolve_statements :
    Nat → ResolverState → List Stmt →
      Except String (List Element × ResolverState)
  | 0, _, _ => .error "loop nesting allowance exhausted"
  | fuel + 1, st, ss => _resolve_statements_go (_resolve_statements fuel) st ss

/-- Source `Resolver.resolve` / module-level `resolve`: process the statements
with a fresh session state and return a document containing only the
produced elements. -/
def resolve (doc : Document) : Except String Document := do
  let (els, _) ←
    _resolve_statements (_MAX_LOOP_DEPTH + 1) initState doc.statements
  .ok { statements := els.map .element }

/-- A lexical nest of for loops (for stating the nesting-ceiling claim):
one `ForStatement` per `(var, start, end, step)` spec, wrapped outside-in
around the innermost body. -/
def nestFor :
    String × Expr × Expr × Option Expr →
    List (String × Expr × Expr × Option Expr) → List Stmt → Stmt
  | (v, s0, e0, t0), [], body => .forStmt v s0 e0 t0 body
  | (v, s0, e0, t0), spec :: rest, body =>
    .forStmt v s0 e0 t0 [nestFor spec rest body]

end Resolver

/-! ## Layout engine — `converter/layout.py` -/

namespace Layout

/-- Source `ResolvedBox`: resolved absolute bounding box for an element.

The `rotation` field is modelled from the spec: the `ResolvedBox`
dataclass in the provided `converter/layout.py` declares only
`x, y, width, height`, yet `converter/shapes.py` (`_render_gear`) and the
gear tests read `box.rotation` — the field (spec §3: "plus an optional
`rotation` in degrees"), defaulting to 0, belongs to the revision of
`layout.py` that is not among the provided sources. -/
structure ResolvedBox where
  x : ℚ
  y : ℚ
  width : ℚ
  height : ℚ
  rotation : ℚ := 0
deriving DecidableEq, Repr

/-- Source `DEFAULT_CANVAS_W`. -/
def DEFAULT_CANVAS_W : ℚ := 800

/-- Source `DEFAULT_CANVAS_H`. -/
def DEFAULT_CANVAS_H : ℚ := 600

/-- Source `_ANCHOR_FRACTIONS`: anchor positions as fractions of container. -/
def _ANCHOR_FRACTIONS : List (String × (ℚ × ℚ)) :=
  [("center", (1 / 2, 1 / 2)), ("top", (1 / 2, 0)), ("bottom", (1 / 2, 1)),
   ("left", (0, 1 / 2)), ("right", (1, 1 / 2)), ("top left", (0, 0)),
   ("top right", (1, 0)), ("bottom left", (0, 1)), ("bottom right", (1, 1)),
   ("center left", (0, 1 / 2)), ("center right", (1, 1 / 2)),
   ("center top", (1 / 2, 0)), ("center bottom", (1 / 2, 1))]

/-- Applies `to_pixels` to a field of a resolved element.  The layout engine runs
on resolved documents whose numeric fields hold concrete `Value`s; a
leftover expression would fail in Python with an `AttributeError`,
modelled as an error. -/
def numFieldToPixels (f : NumField) (container : Option ℚ) :
    Except String ℚ :=
  match f with
  | .val v => v.to_pixels container
  | .ex _ => .error "unresolved expression in layout"

/-- Source `_resolve_anchor_in`: position an element inside a reference box at
the given anchor. -/
def _resolve_anchor_in (anchor : String) (el_w el_h : ℚ)
    (ref_box : ResolvedBox) : ℚ × ℚ :=
  let (fx, fy) := (List.lookup anchor _ANCHOR_FRACTIONS).getD (1 / 2, 1 / 2)
  (ref_box.x + fx * (ref_box.width - el_w),
   ref_box.y + fy * (ref_box.height - el_h))

/-- Source `_resolve_relative`: resolve relative positioning (`below`, `above`,
`right of`, `left of`, `inside`) against a reference box. -/
def _resolve_relative (pos : Position) (el_w el_h : ℚ)
    (ref_box : ResolvedBox) : Except String (ℚ × ℚ) := do
  let gap ←
    match pos.gap with
    | some g => numFieldToPixels g none
    | none => pure 0
  if pos.relative = some "below" then
    .ok (ref_box.x + ref_box.width / 2 - el_w / 2,
      ref_box.y + ref_box.height + gap)
  else if pos.relative = some "above" then
    .ok (ref_box.x + ref_box.width / 2 - el_w / 2, ref_box.y - el_h - gap)
  else if pos.relative = some "right of" then
    .ok (ref_box.x + ref_box.width + gap,
      ref_box.y + ref_box.height / 2 - el_h / 2)
  else if pos.relative = some "left of" then
    .ok (ref_box.x - el_w - gap, ref_box.y + ref_box.height / 2 - el_h / 2)
  else if pos.relative = some "inside" then
    if optStrTruthy pos.ref_anchor then
      .ok (_resolve_anchor_in (pos.ref_anchor.getD "") el_w el_h ref_box)
    else
      .ok (ref_box.x + ref_box.width / 2 - el_w / 2,
        ref_box.y + ref_box.height / 2 - el_h / 2)
  else .ok (ref_box.x, ref_box.y)

/-- Source `_resolve_position`: resolve a `Position` to absolute coordinates, in
priority order — explicit coordinates (centered on the point), relative
placement against an already-resolved reference box, anchor placement
(within a reference box or the container), container origin. -/
def _resolve_position (pos : Option Position) (el_w el_h : ℚ)
    (container_w container_h container_x container_y : ℚ)
    (boxes : String → Option ResolvedBox) : Except String (ℚ × ℚ) :=
  match pos with
  | none => .ok (container_x, container_y)
  | some p =>
    match p.x, p.y with
    | some px, some py => do
      let x ← numFieldToPixels px (some container_w)
      let y ← numFieldToPixels py (some container_h)
      .ok (x - el_w / 2, y - el_h / 2)
    | _, _ =>
      match
        (if optStrTruthy p.relative && optStrTruthy p.reference then
          boxes (p.reference.getD "")
        else none) with
      | some ref_box => _resolve_relative p el_w el_h ref_box
      | none =>
        if optStrTruthy p.anchor then
          match
            (if optStrTruthy p.reference then boxes (p.reference.getD "")
            else none) with
          | some ref_box =>
            .ok (_resolve_anchor_in (p.anchor.getD "") el_w el_h ref_box)
          | none =>
            let (fx, fy) :=
              (List.lookup (p.anchor.getD "") _ANCHOR_FRACTIONS).getD
                (1 / 2, 1 / 2)
            .ok (container_x + fx * (container_w - el_w),
              container_y + fy * (container_h - el_h))
        else .ok (container_x, container_y)

mutual

/-- Source `_resolve_element` (layout): resolve one element's box — dimensions
against the immediate container (circles sized by radius against the
smaller container axis), position via `_resolve_position` — record it
under the element's key, and recurse into children with this box as their
container. -/
def _resolve_element (el : Element) (boxes : String → Option ResolvedBox)
    (container_w container_h container_x container_y : ℚ) (counter : Nat) :
    Except String ((String → Option ResolvedBox) × Nat) :=
  match el with
  | .mk d children => do
    let key :=
      if optStrTruthy d.name then d.name.getD ""
      else "__element_" ++ toString counter
    let counter1 := counter + 1
    let w0 ←
      match d.width with
      | some f => numFieldToPixels f (some container_w)
      | none => pure 0
    let h0 ←
      match d.height with
      | some f => numFieldToPixels f (some container_h)
      | none => pure 0
    let (w, h) ←
      if d.element_type = "circle" then
        match d.radius with
        | some f => do
          let r ← numFieldToPixels f (some (min container_w container_h))
          pure (r * 2, r * 2)
        | none => pure (w0, h0)
      else pure (w0, h0)
    let (x, y) ← _resolve_position d.position w h container_w container_h
      container_x container_y boxes
    let boxes1 := updateFn boxes key { x := x, y := y, width := w, height := h }
    _resolve_children children boxes1 w h x y counter1

/-- The child loop of layout `_resolve_element`. -/
def _resolve_children (children : List Element)
    (boxes : String → Option ResolvedBox)
    (container_w container_h container_x container_y : ℚ) (counter : Nat) :
    Except String ((String → Option ResolvedBox) × Nat) :=
  match children with
  | [] => .ok (boxes, counter)
  | c :: rest => do
    let (boxes1, counter1) ← _resolve_element c boxes container_w container_h
      container_x container_y counter
    _resolve_children rest boxes1 container_w container_h container_x
      container_y counter1

end

/-- The top-level loop of `resolve_layout` over the document's elements,
skipping the canvas. -/
def layoutTopLevel (els : List Element)
    (boxes : String → Option ResolvedBox) (canvas_w canvas_h : ℚ)
    (counter : Nat) : Except String (String → Option ResolvedBox) :=
  match els with
  | [] => .ok boxes
  | el :: rest =>
    if el.data.element_type = "canvas" then
      layoutTopLevel rest boxes canvas_w canvas_h counter
    else do
      let (boxes1, counter1) ← _resolve_element el boxes canvas_w canvas_h
        0 0 counter
      layoutTopLevel rest boxes1 canvas_w canvas_h counter1

/-- Source `resolve_layout`: resolve all element positions to absolute pixel
boxes, keyed by element name (or a generated key). -/
def resolve_layout (doc : Document) : Except String (String → Option ResolvedBox) := do
  let canvas := doc.canvas
  let canvas_w ←
    match canvas with
    | some c =>
      match c.data.width with
      | some f => numFieldToPixels f none
      | none => pure DEFAULT_CANVAS_W
    | none => pure DEFAULT_CANVAS_W
  let canvas_h ←
    match canvas with
    | some c =>
      match c.data.height with
      | some f => numFieldToPixels f none
      | none => pure DEFAULT_CANVAS_H
    | none => pure DEFAULT_CANVAS_H
  let boxes0 : String → Option ResolvedBox :=
    match canvas with
    | some c =>
      let key := if optStrTruthy c.data.name then c.data.name.getD "" else "__canvas"
      updateFn (fun _ => none) key
        { x := 0, y := 0, width := canvas_w, height := canvas_h }
    | none => fun _ => none
  layoutTopLevel doc.elements boxes0 canvas_w canvas_h 0

/-! ### Gear meshing -/

/-- The pitch radius `module * teeth / 2`, as computed in
`converter/shapes.py` (`_gear_path_data`). -/
def pitch_radius (module teeth : ℚ) : ℚ := module * teeth / 2

/-- The outer radius `pitch_r + module` of `_gear_path_data`, which the
gear tests use as half the gear's box size. -/
def outer_radius (module teeth : ℚ) : ℚ := pitch_radius module teeth + module

/-- Modelled from the spec: the gear-mesh placement of the layout engine
is absent from the provided `converter/layout.py` (the `mesh_ref`
position field is declared in `ast_nodes.py` and consumed by the gear
tests, but no code under the provided sources resolves it).  Per spec
§4.3, a driven gear referencing a drive gear is centered at a distance
equal to the sum of the two pitch radii from the drive gear's center
(continuing along the layout line, here the positive x-axis), its box is
sized by its outer radius, and its box carries a rotation of
`180° × (driven_teeth − 1) / driven_teeth` relative to the drive gear's
rotation. -/
def _resolve_gear_mesh (drive_box : ResolvedBox)
    (drive_teeth drive_module driven_teeth driven_module : ℚ) : ResolvedBox :=
  let drive_cx := drive_box.x + drive_box.width / 2
  let drive_cy := drive_box.y + drive_box.height / 2
  let dist := pitch_radius drive_module drive_teeth +
    pitch_radius driven_module driven_teeth
  let cx := drive_cx + dist
  let cy := drive_cy
  let r := outer_radius driven_module driven_teeth
  { x := cx - r, y := cy - r, width := 2 * r, height := 2 * r,
    rotation := drive_box.rotation + 180 * (driven_teeth - 1) / driven_teeth }

/-- The center of a box. -/
def boxCenter (b : ResolvedBox) : ℚ × ℚ :=
  (b.x + b.width / 2, b.y + b.height / 2)

end Layout

/-! ## SVG emission — `converter/svg_builder.py` (gradient bookkeeping) -/

namespace Svg

mutual

/-- Source `_all_elements`: flatten the element tree in pre-order. -/
def _all_elements : List Element → List Element
  | [] => []
  | el :: rest => el :: (_all_elements_under el ++ _all_elements rest)

/-- The recursion of `_all_elements` into one element's subtree. -/
def _all_elements_under : Element → List Element
  | .mk _ cs => _all_elements cs

end

/-- One `linearGradient` entry of the `<defs>` block. -/
structure GradientDef where
  id : String
  color1 : String
  color2 : String
deriving DecidableEq, Repr

/-- The scan loop of `_create_gradient_defs`: for each element (in
pre-order) that has both a gradient and a truthy name, append a
`linearGradient` definition with the next ordinal id and bind
`name ↦ url(#grad_i)` in the gradient map (later bindings shadow earlier
ones, as in the Python dict). -/
def gradientScan : List Element → Nat → List GradientDef × (String → Option String)
  | [], _ => ([], fun _ => none)
  | el :: rest, counter =>
    match el.data.gradient with
    | some g =>
      if optStrTruthy el.data.name then
        let url := "url(#grad_" ++ toString counter ++ ")"
        let (ds, m) := gradientScan rest (counter + 1)
        ({ id := "grad_" ++ toString counter, color1 := g.color1,
           color2 := g.color2 } :: ds,
         fun n =>
           match m n with
           | some u => some u
           | none => if n = el.data.name.getD "" then some url else none)
      else gradientScan rest counter
    | none => gradientScan rest counter

/-- Source `_create_gradient_defs`: scan the document for gradient fills,
returning the ordered `<defs>` entries and the element-name → URL map. -/
def _create_gradient_defs (doc : Document) :
    List GradientDef × (String → Option String) :=
  gradientScan (_all_elements doc.elements) 0

/-- The gradient-and-named elements of a pre-order scan — exactly those
for which the scan registers a definition. -/
def gradientElements (els : List Element) : List Element :=
  els.filter fun el => el.data.gradient.isSome && optStrTruthy el.data.name

/-- The `fill` attribute of the node emitted for an element by
`_render_element` / `render_shape` / `build_style_attrs`: the solid fill
string when truthy, overridden by the gradient URL when the element's key
is in the gradient map.  `_find_key`, the fallback key used for an
element without a truthy name (it scans the box dict's key order, which
the function-valued dict model does not retain), is abstracted as a
parameter; named elements do not use it. -/
def _render_element_fill (el : Element) (gradient_map : String → Option String)
    (fallback_key : String) : Option String :=
  let key :=
    if optStrTruthy el.data.name then el.data.name.getD "" else fallback_key
  let base :=
    match el.data.fill with
    | some (.str s) => if s.isEmpty then none else some s
    | _ => none
  match gradient_map key with
  | some url => some url
  | none => base

end Svg

end StagScribe

/-! # Verified claims -/

open StagScribe

/-- C7: for every `Value` with unit `%`, `to_pixels` without a container
size always fails, and with container size `c` it returns
`number / 100 * c`; for every `Value` with no unit and any container
size, `to_pixels` returns the number unchanged. -/
theorem C7_percentage_conversion :
    (∀ n : ℚ, exceptIsError ((Value.mk n (some "%")).to_pixels none) = true) ∧
    (∀ n c : ℚ,
      (Value.mk n (some "%")).to_pixels (some c) = .ok (n / 100 * c)) ∧
    (∀ (n : ℚ) (c : Option ℚ), (Value.mk n none).to_pixels c = .ok n) :=
  ⟨fun _ => rfl, fun _ _ => rfl, fun _ _ => rfl⟩

/-- C10: for every `Value` whose unit is a natural-fraction keyword and
every container size `c`, `to_pixels` returns the keyword's fixed
fraction times `c`, independently of the `Value`'s number field. -/
theorem C10_natural_fraction_units :
    ∀ (u : String) (f : ℚ), List.lookup u _NATURAL_FRACTIONS = some f →
      ∀ n n' c : ℚ,
        (Value.mk n (some u)).to_pixels (some c) = .ok (f * c) ∧
        (Value.mk n (some u)).to_pixels (some c) =
          (Value.mk n' (some u)).to_pixels (some c) := by
  intro u f h n n' c
  simp only [_NATURAL_FRACTIONS, List.lookup] at h
  repeat' split at h
  all_goals
    simp_all [beq_iff_eq, Value.to_pixels, _NATURAL_FRACTIONS, List.lookup]

/-- C10 witness: the `half` keyword at container 200 yields 100 whatever
the number field is. -/
theorem C10_natural_fraction_units_witness :
    List.lookup "half" _NATURAL_FRACTIONS = some (1 / 2) ∧
    (Value.mk 7 (some "half")).to_pixels (some 200) = .ok (1 / 2 * 200) ∧
    (Value.mk 7 (some "half")).to_pixels (some 200) =
      (Value.mk 3 (some "half")).to_pixels (some 200) := by
  refine ⟨by with_unfolding_all decide, ?_, ?_⟩
  · exact (C10_natural_fraction_units "half" (1 / 2)
      (by with_unfolding_all decide) 7 3 200).1
  · exact (C10_natural_fraction_units "half" (1 / 2)
      (by with_unfolding_all decide) 7 3 200).2

/-- C2: adding or subtracting two `Value`s with different non-null units
always fails; adding (or subtracting) a unitless `Value` and a
unit-bearing `Value`, in either order, always succeeds and the result
carries the unit-bearing side's unit; multiplying or dividing two
unit-bearing `Value`s always fails. -/
theorem C2_unit_algebra :
    (∀ (v w : Value) (u1 u2 : String), v.unit = some u1 → w.unit = some u2 →
      u1 ≠ u2 →
      exceptIsError (Resolver._eval_binary "+" v w) = true ∧
      exceptIsError (Resolver._eval_binary "-" v w) = true) ∧
    (∀ (v w : Value) (u : String), v.unit = none → w.unit = some u →
      Resolver._eval_binary "+" v w = .ok ⟨v.number + w.number, some u⟩ ∧
      Resolver._eval_binary "-" v w = .ok ⟨v.number - w.number, some u⟩) ∧
    (∀ (v w : Value) (u : String), v.unit = some u → w.unit = none →
      Resolver._eval_binary "+" v w = .ok ⟨v.number + w.number, some u⟩ ∧
      Resolver._eval_binary "-" v w = .ok ⟨v.number - w.number, some u⟩) ∧
    (∀ (v w : Value) (u1 u2 : String), v.unit = some u1 → w.unit = some u2 →
      exceptIsError (Resolver._eval_binary "*" v w) = true ∧
      exceptIsError (Resolver._eval_binary "/" v w) = true) := by
  refine ⟨?_, ?_, ?_, ?_⟩
  · intro v w u1 u2 hv hw hne
    constructor <;>
      simp [Resolver._eval_binary, Resolver._check_additive_units, hv, hw,
        hne, exceptIsError, Bind.bind, Except.bind]
  · intro v w u hv hw
    constructor <;>
      simp [Resolver._eval_binary, Resolver._check_additive_units, hv, hw,
        Bind.bind, Except.bind]
  · intro v w u hv hw
    constructor <;>
      simp [Resolver._eval_binary, Resolver._check_additive_units, hv, hw,
        Bind.bind, Except.bind]
  · intro v w u1 u2 hv hw
    constructor
    · simp [Resolver._eval_binary, Resolver._check_multiplicative_units, hv,
        hw, exceptIsError, Bind.bind, Except.bind]
    · by_cases hz : w.number = 0 <;>
        simp [Resolver._eval_binary, Resolver._check_multiplicative_units,
          hv, hw, hz, exceptIsError, Bind.bind, Except.bind]

/-- C2 witness: `1cm + 2px` and `1cm - 2px` fail; `1 + 2cm` succeeds as
`3cm`; `2cm + 1` succeeds as `3cm`; `2cm * 3in` and `2cm / 3in` fail. -/
theorem C2_unit_algebra_witness :
    (exceptIsError (Resolver._eval_binary "+" ⟨1, some "cm"⟩ ⟨2, some "px"⟩) = true ∧
      exceptIsError (Resolver._eval_binary "-" ⟨1, some "cm"⟩ ⟨2, some "px"⟩) = true) ∧
    Resolver._eval_binary "+" ⟨1, none⟩ ⟨2, some "cm"⟩ = .ok ⟨1 + 2, some "cm"⟩ ∧
    Resolver._eval_binary "-" ⟨2, some "cm"⟩ ⟨1, none⟩ = .ok ⟨2 - 1, some "cm"⟩ ∧
    (exceptIsError (Resolver._eval_binary "*" ⟨2, some "cm"⟩ ⟨3, some "in"⟩) = true ∧
      exceptIsError (Resolver._eval_binary "/" ⟨2, some "cm"⟩ ⟨3, some "in"⟩) = true) :=
  ⟨C2_unit_algebra.1 ⟨1, some "cm"⟩ ⟨2, some "px"⟩ "cm" "px" rfl rfl
      (by with_unfolding_all decide),
   (C2_unit_algebra.2.1 ⟨1, none⟩ ⟨2, some "cm"⟩ "cm" rfl rfl).1,
   (C2_unit_algebra.2.2.1 ⟨2, some "cm"⟩ ⟨1, none⟩ "cm" rfl rfl).2,
   C2_unit_algebra.2.2.2 ⟨2, some "cm"⟩ ⟨3, some "in"⟩ "cm" "in" rfl rfl⟩

/-- C8: an element of pixel size `W × H` anchored `center` with no
reference inside a container of size `(Cw, Ch)` at origin `(0, 0)`
resolves to `((Cw − W) / 2, (Ch − H) / 2)`; in particular the layout of a
800×600 canvas with a 200×100 centered element places it at
`(300, 250)`. -/
theorem C8_anchor_centering :
    (∀ (w h cw ch : ℚ) (boxes : String → Option Layout.ResolvedBox),
      Layout._resolve_position (some { anchor := some "center" }) w h cw ch
        0 0 boxes = .ok ((cw - w) / 2, (ch - h) / 2)) ∧
    (Layout.resolve_layout
      ⟨[.element (.mk
          { element_type := "canvas", width := some (.val ⟨800, none⟩),
            height := some (.val ⟨600, none⟩) } []),
        .element (.mk
          { element_type := "rect", name := some "Box",
            width := some (.val ⟨200, none⟩),
            height := some (.val ⟨100, none⟩),
            position := some { anchor := some "center" } } [])]⟩).map
      (fun m => m "Box") =
      .ok (some { x := 300, y := 250, width := 200, height := 100 }) := by
  constructor
  · intro w h cw ch boxes
    have h1 : Layout._resolve_position (some { anchor := some "center" })
        w h cw ch 0 0 boxes =
        .ok (0 + 1 / 2 * (cw - w), 0 + 1 / 2 * (ch - h)) := by
      with_unfolding_all rfl
    rw [h1]
    have e1 : (0 + 1 / 2 * (cw - w) : ℚ) = (cw - w) / 2 := by ring
    have e2 : (0 + 1 / 2 * (ch - h) : ℚ) = (ch - h) / 2 := by ring
    rw [e1, e2]
  · with_unfolding_all decide

/-- C1: the driven gear's center sits at a distance equal to the sum of
the two pitch radii (`module × teeth / 2` each) from the drive gear's
center, and its box carries a rotation of
`180° × (driven_teeth − 1) / driven_teeth` relative to the drive gear's
rotation (so exactly that value when the drive gear is undriven, i.e. at
rotation 0); instantiated at the repository's gear test (teeth 12 and 18,
module 10): center distance 150, rotation 170°. -/
theorem C1_gear_meshing :
    (∀ (drive_box : Layout.ResolvedBox) (t1 m1 t2 m2 : ℚ),
      ((Layout.boxCenter (Layout._resolve_gear_mesh drive_box t1 m1 t2 m2)).1 -
            (Layout.boxCenter drive_box).1) ^ 2 +
          ((Layout.boxCenter (Layout._resolve_gear_mesh drive_box t1 m1 t2 m2)).2 -
            (Layout.boxCenter drive_box).2) ^ 2 =
        (Layout.pitch_radius m1 t1 + Layout.pitch_radius m2 t2) ^ 2 ∧
      (Layout._resolve_gear_mesh drive_box t1 m1 t2 m2).rotation =
        drive_box.rotation + 180 * (t2 - 1) / t2 ∧
      (drive_box.rotation = 0 →
        (Layout._resolve_gear_mesh drive_box t1 m1 t2 m2).rotation =
          180 * (t2 - 1) / t2)) ∧
    Layout.boxCenter
        (Layout._resolve_gear_mesh ⟨130, 130, 140, 140, 0⟩ 12 10 18 10) =
      (350, 200) ∧
    (Layout._resolve_gear_mesh ⟨130, 130, 140, 140, 0⟩ 12 10 18 10).rotation =
      170 := by
  refine ⟨fun drive_box t1 m1 t2 m2 => ⟨?_, ?_, ?_⟩, ?_, ?_⟩
  · simp only [Layout.boxCenter, Layout._resolve_gear_mesh,
      Layout.pitch_radius, Layout.outer_radius]
    ring
  · rfl
  · intro h0
    simp only [Layout._resolve_gear_mesh, h0]
    ring
  · with_unfolding_all decide
  · with_unfolding_all decide

/-- C1 witness: at the gear test's values (undriven drive gear with 12
teeth, driven gear with 18 teeth, module 10) the rotation is exactly
`180 × (18 − 1) / 18`. -/
theorem C1_gear_meshing_witness :
    (Layout._resolve_gear_mesh ⟨130, 130, 140, 140, 0⟩ 12 10 18 10).rotation =
      180 * (18 - 1) / 18 :=
  (C1_gear_meshing.1 ⟨130, 130, 140, 140, 0⟩ 12 10 18 10).2.2 rfl

/-- C3: `for i from 0 to 3` over a single-statement body resolves to
exactly 4 elements in ascending index order 0, 1, 2, 3; `for i from 3 to
0` with no step resolves to 4 elements in descending order 3, 2, 1, 0,
the step defaulting to −1 because `end < start`. -/
theorem C3_loop_unrolling :
    Resolver._default_step 3 0 = -1 ∧
    (Resolver.resolve ⟨[.forStmt "i" (.lit ⟨0, none⟩) (.lit ⟨3, none⟩) none
        [.element (.mk
          { element_type := "rect", name := some "Box_{i}" } [])]]⟩).map
        (fun d => d.statements.map fun s =>
          match s with
          | .element e => e.data.name
          | _ => none) =
      .ok [some "Box_0", some "Box_1", some "Box_2", some "Box_3"] ∧
    (Resolver.resolve ⟨[.forStmt "i" (.lit ⟨3, none⟩) (.lit ⟨0, none⟩) none
        [.element (.mk
          { element_type := "rect", name := some "Box_{i}" } [])]]⟩).map
        (fun d => d.statements.map fun s =>
          match s with
          | .element e => e.data.name
          | _ => none) =
      .ok [some "Box_3", some "Box_2", some "Box_1", some "Box_0"] :=
  ⟨by with_unfolding_all decide, by with_unfolding_all decide,
   by with_unfolding_all decide⟩

/-- C5: whenever `_handle_for` completes, the variable table maps the
loop variable exactly as it did before the loop — to its prior `Value`
when it was bound, and to nothing when it was unbound. -/
theorem C5_loop_variable_restored :
    ∀ (recBody : Resolver.ResolverState → List Stmt →
        Except String (List Element × Resolver.ResolverState))
      (st : Resolver.ResolverState) (var_name : String)
      (startE endE : Expr) (stepE : Option Expr) (body : List Stmt)
      (els : List Element) (st' : Resolver.ResolverState),
      Resolver._handle_for recBody st var_name startE endE stepE body =
        .ok (els, st') →
      st'.vars var_name = st.vars var_name := by
  intro recBody st var_name startE endE stepE body els st' h
  unfold Resolver._handle_for at h
  simp only [Bind.bind, Except.bind] at h
  repeat' split at h
  all_goals try exact Except.noConfusion h
  simp only [Except.ok.injEq, Prod.mk.injEq] at h
  obtain ⟨-, hst⟩ := h
  rw [← hst]
  simp

/-- C5 witness: with `i` bound to 99 before a `for i from 0 to 1` loop,
the table still maps `i` to 99 after the loop. -/
theorem C5_loop_variable_restored_witness :
    (Resolver._handle_for (Resolver._resolve_statements 5)
        ⟨updateFn (fun _ => none) "i" ⟨99, none⟩, fun _ => none,
          fun _ => none, 0⟩
        "i" (.lit ⟨0, none⟩) (.lit ⟨1, none⟩) none
        [.element (.mk
          { element_type := "rect", name := some "Box_{i}" } [])]).map
      (fun p => p.2.vars "i") = .ok (some ⟨99, none⟩) := by
  have hok : exceptIsError
      (Resolver._handle_for (Resolver._resolve_statements 5)
        ⟨updateFn (fun _ => none) "i" ⟨99, none⟩, fun _ => none,
          fun _ => none, 0⟩
        "i" (.lit ⟨0, none⟩) (.lit ⟨1, none⟩) none
        [.element (.mk
          { element_type := "rect", name := some "Box_{i}" } [])]) = false := by
    with_unfolding_all decide
  rcases heq : Resolver._handle_for (Resolver._resolve_statements 5)
      ⟨updateFn (fun _ => none) "i" ⟨99, none⟩, fun _ => none,
        fun _ => none, 0⟩
      "i" (.lit ⟨0, none⟩) (.lit ⟨1, none⟩) none
      [.element (.mk
        { element_type := "rect", name := some "Box_{i}" } [])] with msg | p
  · rw [heq] at hok
    simp [exceptIsError] at hok
  · have hrestore := C5_loop_variable_restored
      (Resolver._resolve_statements 5)
      ⟨updateFn (fun _ => none) "i" ⟨99, none⟩, fun _ => none,
        fun _ => none, 0⟩
      "i" (.lit ⟨0, none⟩) (.lit ⟨1, none⟩) none
      [.element (.mk
        { element_type := "rect", name := some "Box_{i}" } [])]
      p.1 p.2 (by rw [heq])
    simp only [Except.map]
    rw [hrestore]
    simp [updateFn]

/-- C6: for every document on which `resolve` succeeds, the returned
document's statement sequence contains only `Element` statements — no
`IsStatement`, `ColorsBlock`, `DefineBlock`, `PlaceStatement` or
`ForStatement` survives resolution. -/
theorem C6_resolver_output_elements_only :
    ∀ (doc out : Document), Resolver.resolve doc = .ok out →
      ∀ s ∈ out.statements, stmtIsElement s = true := by
  intro doc out h s hs
  unfold Resolver.resolve at h
  simp only [Bind.bind, Except.bind] at h
  split at h
  · exact absurd h (by simp)
  · rename_i p heqp
    rcases p with ⟨els, stf⟩
    simp only [Except.ok.injEq] at h
    rw [← h] at hs
    simp only [List.mem_map] at hs
    obtain ⟨e, -, rfl⟩ := hs
    rfl

/-- C6 witness: a document exercising every statement kind (assignment,
colors block, template definition and placement, loop, plain element)
resolves to a statement list in which every entry is an element. -/
theorem C6_resolver_output_elements_only_witness :
    (Resolver.resolve ⟨[
      .isStmt "w" (.lit ⟨30, none⟩),
      .colorsBlock [⟨"main", "red", false⟩],
      .defineBlock "card" [.mk
        { element_type := "rect", width := some (.ex (.varRef "w")) } []],
      .placeStmt { template_name := "card", instance_name := some "C1" },
      .forStmt "i" (.lit ⟨0, none⟩) (.lit ⟨1, none⟩) none
        [.element (.mk { element_type := "rect", name := some "R{i}" } [])],
      .element (.mk { element_type := "rect" } [])]⟩).map
      (fun d => d.statements.all stmtIsElement) = .ok true := by
  have hok : exceptIsError (Resolver.resolve ⟨[
      .isStmt "w" (.lit ⟨30, none⟩),
      .colorsBlock [⟨"main", "red", false⟩],
      .defineBlock "card" [.mk
        { element_type := "rect", width := some (.ex (.varRef "w")) } []],
      .placeStmt { template_name := "card", instance_name := some "C1" },
      .forStmt "i" (.lit ⟨0, none⟩) (.lit ⟨1, none⟩) none
        [.element (.mk { element_type := "rect", name := some "R{i}" } [])],
      .element (.mk { element_type := "rect" } [])]⟩) = false := by
    with_unfolding_all decide
  rcases heq : Resolver.resolve ⟨[
      .isStmt "w" (.lit ⟨30, none⟩),
      .colorsBlock [⟨"main", "red", false⟩],
      .defineBlock "card" [.mk
        { element_type := "rect", width := some (.ex (.varRef "w")) } []],
      .placeStmt { template_name := "card", instance_name := some "C1" },
      .forStmt "i" (.lit ⟨0, none⟩) (.lit ⟨1, none⟩) none
        [.element (.mk { element_type := "rect", name := some "R{i}" } [])],
      .element (.mk { element_type := "rect" } [])]⟩ with msg | out
  · rw [heq] at hok
    simp [exceptIsError] at hok
  · have hall := C6_resolver_output_elements_only _ out heq
    simp only [Except.map, Except.ok.injEq]
    rw [List.all_eq_true]
    exact hall

/-- Inversion of a successful `Except` bind. -/
theorem except_bind_ok {α β : Type} {m : Except String α}
    {k : α → Except String β} {r : β} (h : (m >>= k) = .ok r) :
    ∃ a, m = .ok a ∧ k a = .ok r := by
  cases m with
  | error e => simp [Bind.bind, Except.bind] at h
  | ok a => exact ⟨a, rfl, h⟩

/-- A for loop at nesting depth 5 or more always fails at the depth
check. -/
theorem handle_for_depth_fails
    (recBody : Resolver.ResolverState → List Stmt →
      Except String (List Element × Resolver.ResolverState))
    (st : Resolver.ResolverState) (v : String) (s0 e0 : Expr)
    (t0 : Option Expr) (body : List Stmt) (hd : 5 ≤ st.loopDepth) :
    exceptIsError (Resolver._handle_for recBody st v s0 e0 t0 body) = true := by
  unfold Resolver._handle_for
  rw [if_pos]
  · rfl
  · exact hd

/-- Interpolation maps a for-loop nest to the same nest with the
innermost body interpolated (bounds and structure untouched). -/
theorem interp_nestFor (vars : String → Option Value) :
    ∀ (rest : List (String × Expr × Expr × Option Expr))
      (spec : String × Expr × Expr × Option Expr) (body : List Stmt),
      Resolver._interp_stmts vars [Resolver.nestFor spec rest body] =
        [Resolver.nestFor spec rest (Resolver._interp_stmts vars body)] := by
  intro rest
  induction rest with
  | nil =>
    intro spec body
    rcases spec with ⟨v, s0, e0, t0⟩
    simp [Resolver.nestFor, Resolver._interp_stmts, Resolver._interp_stmt]
  | cons spec2 r ih =>
    intro spec body
    rcases spec with ⟨v, s0, e0, t0⟩
    have h2 := ih spec2 body
    simp only [Resolver._interp_stmts, List.cons.injEq, and_true] at h2
    simp only [Resolver.nestFor, Resolver._interp_stmts, Resolver._interp_stmt]
    rw [h2]

/-- A for-loop nest deeper than the remaining depth budget always fails:
resolving `nestFor spec rest body` from a state whose loop depth plus the
number of nested loops exceeds 5 is an error, whatever the bounds. -/
theorem nestFor_fails :
    ∀ (rest : List (String × Expr × Expr × Option Expr))
      (spec : String × Expr × Expr × Option Expr) (body : List Stmt)
      (st : Resolver.ResolverState) (fuel : Nat),
      5 ≤ st.loopDepth + rest.length →
      exceptIsError
        (Resolver._resolve_statements fuel st
          [Resolver.nestFor spec rest body]) = true := by
  intro rest
  induction rest with
  | nil =>
    intro spec body st fuel hdepth
    simp only [List.length_nil, Nat.add_zero] at hdepth
    cases fuel with
    | zero => rfl
    | succ f =>
      rcases spec with ⟨v, s0, e0, t0⟩
      simp only [Resolver._resolve_statements, Resolver._resolve_statements_go,
        Resolver.nestFor, Bind.bind, Except.bind]
      have hfail := handle_for_depth_fails (Resolver._resolve_statements f)
        st v s0 e0 t0 body hdepth
      rcases hh : Resolver._handle_for (Resolver._resolve_statements f)
          st v s0 e0 t0 body with msg | p
      · rfl
      · rw [hh] at hfail
        simp [exceptIsError] at hfail
  | cons spec2 r ih =>
    intro spec body st fuel hdepth
    simp only [List.length_cons] at hdepth
    cases fuel with
    | zero => rfl
    | succ f =>
      rcases spec with ⟨v, s0, e0, t0⟩
      simp only [Resolver._resolve_statements, Resolver._resolve_statements_go,
        Resolver.nestFor, Bind.bind, Except.bind]
      rcases hh : Resolver._handle_for (Resolver._resolve_statements f)
          st v s0 e0 t0 [Resolver.nestFor spec2 r body] with msg | p
      · rfl
      · exfalso
        by_cases hd5 : 5 ≤ st.loopDepth
        · have hfail := handle_for_depth_fails (Resolver._resolve_statements f)
            st v s0 e0 t0 [Resolver.nestFor spec2 r body] hd5
          rw [hh] at hfail
          simp [exceptIsError] at hfail
        · -- walk the successful `_handle_for` to its first iteration
          unfold Resolver._handle_for at hh
          rw [if_neg (by simp only [Resolver._MAX_LOOP_DEPTH]; omega)] at hh
          obtain ⟨sv, hsv, hh⟩ := except_bind_ok hh
          obtain ⟨ev, hev, hh⟩ := except_bind_ok hh
          split at hh
          any_goals exact Except.noConfusion hh
          split at hh
          any_goals exact Except.noConfusion hh
          obtain ⟨stepn, hstep, hh⟩ := except_bind_ok hh
          split at hh
          any_goals exact Except.noConfusion hh
          rename_i hz
          split at hh
          any_goals exact Except.noConfusion hh
          rename_i hdir1
          split at hh
          any_goals exact Except.noConfusion hh
          rename_i hdir2
          split at hh
          any_goals exact Except.noConfusion hh
          obtain ⟨p2, hrun, -⟩ := except_bind_ok hh
          -- the while condition holds at the start value
          have heps : (0 : ℚ) < Resolver._EPS := by
            norm_num [Resolver._EPS]
          have hcond : (0 < stepn ∧ sv.number ≤ ev.number + Resolver._EPS) ∨
              (stepn < 0 ∧ ev.number - Resolver._EPS ≤ sv.number) := by
            rcases lt_trichotomy stepn 0 with hs | hs | hs
            · right
              refine ⟨hs, ?_⟩
              push_neg at hdir2
              have := hdir2 hs
              linarith
            · exact absurd hs hz
            · left
              refine ⟨hs, ?_⟩
              push_neg at hdir1
              have := hdir1 hs
              linarith
          -- the iteration count is a successor, so the loop body runs
          have hw : ∃ w, Resolver._while_count sv.number ev.number stepn =
              w + 1 := by
            rcases hcond with ⟨hs, hle⟩ | ⟨hs, hle⟩
            · refine ⟨Resolver.truncNat
                ((ev.number + Resolver._EPS - sv.number) / stepn), ?_⟩
              simp only [Resolver._while_count, if_pos hs, if_pos hle]
            · have hns : ¬(0 : ℚ) < stepn := by linarith
              refine ⟨Resolver.truncNat
                ((sv.number - (ev.number - Resolver._EPS)) / (-stepn)), ?_⟩
              simp only [Resolver._while_count, if_neg hns, if_pos hs,
                if_pos hle]
          obtain ⟨w, hwc⟩ := hw
          rw [hwc] at hrun
          simp only [Resolver._run_iters, if_pos hcond] at hrun
          obtain ⟨q, hq, -⟩ := except_bind_ok hrun
          rw [interp_nestFor] at hq
          have hihcontra := ih spec2
            (Resolver._interp_stmts
              (updateFn st.vars v { number := sv.number, unit := none })
              body)
            { st with
              loopDepth := st.loopDepth + 1,
              vars := updateFn st.vars v { number := sv.number, unit := none } }
            f (by simp only []; omega)
          rw [hq] at hihcontra
          simp [exceptIsError] at hihcontra

/-- C4: a for loop whose computed iteration count
(`int(|end − start| / |step|) + 1`) exceeds 10,000 always fails before
producing any elements, and resolving six lexically nested for loops
always fails regardless of their bounds. -/
theorem C4_loop_safety_ceilings :
    (∀ (recBody : Resolver.ResolverState → List Stmt →
        Except String (List Element × Resolver.ResolverState))
      (st : Resolver.ResolverState) (v : String) (startE endE : Expr)
      (stepE : Option Expr) (body : List Stmt) (sv ev : Value) (stepn : ℚ),
      Resolver._eval_expr st startE = .ok sv →
      Resolver._eval_expr st endE = .ok ev →
      Resolver._step_value st stepE sv.number ev.number = .ok stepn →
      Resolver._n_iters sv.number ev.number stepn >
        Resolver._MAX_LOOP_ITERATIONS →
      exceptIsError
        (Resolver._handle_for recBody st v startE endE stepE body) = true) ∧
    (∀ (sp1 sp2 sp3 sp4 sp5 sp6 : String × Expr × Expr × Option Expr)
      (body : List Stmt),
      exceptIsError (Resolver.resolve
        ⟨[Resolver.nestFor sp1 [sp2, sp3, sp4, sp5, sp6] body]⟩) = true) := by
  constructor
  · intro recBody st v startE endE stepE body sv ev stepn h1 h2 h3 h4
    simp only [Resolver._handle_for, h1, h2, h3, Bind.bind, Except.bind]
    repeat' split
    all_goals rfl
  · intro sp1 sp2 sp3 sp4 sp5 sp6 body
    have hfail := nestFor_fails [sp2, sp3, sp4, sp5, sp6] sp1 body
      Resolver.initState (Resolver._MAX_LOOP_DEPTH + 1)
      (by simp [Resolver.initState])
    simp only [Resolver.resolve, Bind.bind, Except.bind]
    rcases hh : Resolver._resolve_statements (Resolver._MAX_LOOP_DEPTH + 1)
        Resolver.initState [Resolver.nestFor sp1 [sp2, sp3, sp4, sp5, sp6] body]
      with msg | p
    · rfl
    · rw [hh] at hfail
      simp [exceptIsError] at hfail

/-- Any name bound in the gradient map belongs to a gradient-and-named
element of the scanned list. -/
theorem gradientScan_domain :
    ∀ (els : List Element) (c : Nat) (n u : String),
      (Svg.gradientScan els c).2 n = some u →
      n ∈ (Svg.gradientElements els).map (fun el => el.data.name.getD "") := by
  intro els
  induction els with
  | nil =>
    intro c n u h
    simp [Svg.gradientScan] at h
  | cons el rest ih =>
    intro c n u h
    rcases hg : el.data.gradient with _ | g
    · simp only [Svg.gradientScan, hg] at h
      have hgel : Svg.gradientElements (el :: rest) =
          Svg.gradientElements rest := by
        simp [Svg.gradientElements, List.filter_cons, hg]
      rw [hgel]
      exact ih c n u h
    · by_cases ht : optStrTruthy el.data.name
      · rcases hsc : Svg.gradientScan rest (c + 1) with ⟨ds, m⟩
        simp only [Svg.gradientScan, hg, ht, if_true, hsc] at h
        have hgel : Svg.gradientElements (el :: rest) =
            el :: Svg.gradientElements rest := by
          simp [Svg.gradientElements, List.filter_cons, hg, ht]
        rw [hgel]
        rcases hmn : m n with _ | u2
        · rw [hmn] at h
          simp only [List.map_cons, List.mem_cons]
          left
          by_cases hn : n = el.data.name.getD ""
          · exact hn
          · rw [if_neg hn] at h
            exact Option.noConfusion h
        · have := ih (c + 1) n u2 (by rw [hsc]; exact hmn)
          simp only [List.map_cons, List.mem_cons]
          right
          exact this
      · simp only [Svg.gradientScan, hg, ht, if_false] at h
        have hgel : Svg.gradientElements (el :: rest) =
            Svg.gradientElements rest := by
          simp [Svg.gradientElements, List.filter_cons, hg, ht]
        rw [hgel]
        exact ih c n u h

/-- The scan's `<defs>` entries carry the consecutive ordinal ids
`grad_c, grad_(c+1), …` in scan order. -/
theorem gradientScan_ids :
    ∀ (els : List Element) (c : Nat),
      ((Svg.gradientScan els c).1).map (fun gd => gd.id) =
        (List.range (Svg.gradientElements els).length).map
          (fun k => "grad_" ++ toString (c + k)) := by
  intro els
  induction els with
  | nil =>
    intro c
    simp [Svg.gradientScan, Svg.gradientElements]
  | cons el rest ih =>
    intro c
    rcases hg : el.data.gradient with _ | g
    · have hgel : Svg.gradientElements (el :: rest) =
          Svg.gradientElements rest := by
        simp [Svg.gradientElements, List.filter_cons, hg]
      simp only [Svg.gradientScan, hg, hgel]
      exact ih c
    · by_cases ht : optStrTruthy el.data.name
      · rcases hsc : Svg.gradientScan rest (c + 1) with ⟨ds, m⟩
        have hgel : Svg.gradientElements (el :: rest) =
            el :: Svg.gradientElements rest := by
          simp [Svg.gradientElements, List.filter_cons, hg, ht]
        have ihc := ih (c + 1)
        rw [hsc] at ihc
        simp only [Svg.gradientScan, hg, ht, if_true, hsc, hgel,
          List.length_cons, List.range_succ_eq_map, List.map_cons,
          List.map_map, List.cons.injEq]
        constructor
        · rw [Nat.add_zero]
        · rw [ihc]
          apply List.map_congr_left
          intro k _
          have : c + 1 + k = c + (k + 1) := by omega
          simp [Function.comp, this]
      · have hgel : Svg.gradientElements (el :: rest) =
            Svg.gradientElements rest := by
          simp [Svg.gradientElements, List.filter_cons, hg, ht]
        simp only [Svg.gradientScan, hg, ht, if_false, hgel]
        exact ih c

/-- The scan's `<defs>` entries carry the gradient colors of the
registered elements, in scan order. -/
theorem gradientScan_colors :
    ∀ (els : List Element) (c : Nat),
      ((Svg.gradientScan els c).1).map (fun gd => (gd.color1, gd.color2)) =
        (Svg.gradientElements els).map (fun el =>
          ((el.data.gradient.getD ⟨"", "", ""⟩).color1,
           (el.data.gradient.getD ⟨"", "", ""⟩).color2)) := by
  intro els
  induction els with
  | nil =>
    intro c
    simp [Svg.gradientScan, Svg.gradientElements]
  | cons el rest ih =>
    intro c
    rcases hg : el.data.gradient with _ | g
    · have hgel : Svg.gradientElements (el :: rest) =
          Svg.gradientElements rest := by
        simp [Svg.gradientElements, List.filter_cons, hg]
      simp only [Svg.gradientScan, hg, hgel]
      exact ih c
    · by_cases ht : optStrTruthy el.data.name
      · rcases hsc : Svg.gradientScan rest (c + 1) with ⟨ds, m⟩
        have hgel : Svg.gradientElements (el :: rest) =
            el :: Svg.gradientElements rest := by
          simp [Svg.gradientElements, List.filter_cons, hg, ht]
        have ihc := ih (c + 1)
        rw [hsc] at ihc
        simp only [Svg.gradientScan, hg, ht, if_true, hsc, hgel,
          List.map_cons, List.cons.injEq]
        exact ⟨rfl, ihc⟩
      · have hgel : Svg.gradientElements (el :: rest) =
            Svg.gradientElements rest := by
          simp [Svg.gradientElements, List.filter_cons, hg, ht]
        simp only [Svg.gradientScan, hg, ht, if_false, hgel]
        exact ih c

/-- When the registered names are distinct, the gradient map binds the
`k`-th registered element's name to the `k`-th ordinal URL. -/
theorem gradientScan_lookup :
    ∀ (els : List Element) (c k : Nat),
      k < (Svg.gradientElements els).length →
      ((Svg.gradientElements els).map (fun el => el.data.name.getD "")).Nodup →
      (Svg.gradientScan els c).2
          (((Svg.gradientElements els).getD k
            (Element.mk { element_type := "" } [])).data.name.getD "") =
        some ("url(#grad_" ++ toString (c + k) ++ ")") := by
  intro els
  induction els with
  | nil =>
    intro c k h
    simp [Svg.gradientElements] at h
  | cons el rest ih =>
    intro c k h hnd
    rcases hg : el.data.gradient with _ | g
    · have hgel : Svg.gradientElements (el :: rest) =
          Svg.gradientElements rest := by
        simp [Svg.gradientElements, List.filter_cons, hg]
      rw [hgel] at h hnd ⊢
      simp only [Svg.gradientScan, hg]
      exact ih c k h hnd
    · by_cases ht : optStrTruthy el.data.name
      · have hgel : Svg.gradientElements (el :: rest) =
            el :: Svg.gradientElements rest := by
          simp [Svg.gradientElements, List.filter_cons, hg, ht]
        rw [hgel] at h hnd ⊢
        rcases hsc : Svg.gradientScan rest (c + 1) with ⟨ds, m⟩
        simp only [Svg.gradientScan, hg, ht, if_true, hsc]
        simp only [List.map_cons, List.nodup_cons, List.mem_map] at hnd
        obtain ⟨hnotin, hndtail⟩ := hnd
        cases k with
        | zero =>
          simp only [List.getD_cons_zero]
          have hmn : m (el.data.name.getD "") = none := by
            rcases hmm : m (el.data.name.getD "") with _ | u2
            · rfl
            · exfalso
              have hmem := gradientScan_domain rest (c + 1)
                (el.data.name.getD "") u2 (by rw [hsc]; exact hmm)
              simp only [List.mem_map] at hmem
              obtain ⟨e2, he2, hname⟩ := hmem
              exact hnotin ⟨e2, he2, hname⟩
          rw [hmn]
          simp
        | succ k' =>
          simp only [List.getD_cons_succ]
          simp only [List.length_cons] at h
          have hk : k' < (Svg.gradientElements rest).length := by omega
          have ihk := ih (c + 1) k' hk hndtail
          rw [hsc] at ihk
          dsimp only at ihk
          rw [ihk]
          have harith : c + 1 + k' = c + (k' + 1) := by omega
          rw [harith]
      · have hgel : Svg.gradientElements (el :: rest) =
            Svg.gradientElements rest := by
          simp [Svg.gradientElements, List.filter_cons, hg, ht]
        rw [hgel] at h hnd ⊢
        simp only [Svg.gradientScan, hg, ht, if_false]
        exact ih c k h hnd

/-- C9 counterexample: in a document whose only element uses a gradient
fill but has no name, the emitter registers no gradient definition at all
and the element's emitted fill is not a gradient URL — refuting the claim
for unnamed elements. -/
theorem C9_gradient_registration_counterexample :
    (Svg._all_elements (Document.elements ⟨[.element (.mk
        { element_type := "rect",
          gradient := some ⟨"#FF0000", "#0000FF", "vertical"⟩ } [])]⟩)).map
      (fun el => el.data.gradient.isSome) = [true] ∧
    (Svg._create_gradient_defs ⟨[.element (.mk
        { element_type := "rect",
          gradient := some ⟨"#FF0000", "#0000FF", "vertical"⟩ } [])]⟩).1 =
      [] ∧
    Svg._render_element_fill
      (.mk { element_type := "rect",
             gradient := some ⟨"#FF0000", "#0000FF", "vertical"⟩ } [])
      (Svg._create_gradient_defs ⟨[.element (.mk
        { element_type := "rect",
          gradient := some ⟨"#FF0000", "#0000FF", "vertical"⟩ } [])]⟩).2
      "__element_0" = none := by
  refine ⟨?_, ?_, ?_⟩ <;> with_unfolding_all decide

/-- C9 (amended): for every element that uses a gradient fill **and has a
truthy name**, the emitter registers a `linearGradient` definition with a
stable ordinal identifier assigned in pre-order scan of the element tree
(`grad_0, grad_1, …`, carrying the element's gradient colors), and —
provided the registered names are distinct, as the structural lint rule
enforces — the element's emitted node carries that gradient's URL as its
fill in place of a solid fill. -/
theorem C9_gradient_registration_amended :
    ∀ doc : Document,
      ((Svg._create_gradient_defs doc).1).map (fun gd => gd.id) =
        (List.range
          (Svg.gradientElements (Svg._all_elements doc.elements)).length).map
          (fun k => "grad_" ++ toString k) ∧
      ((Svg._create_gradient_defs doc).1).map
          (fun gd => (gd.color1, gd.color2)) =
        (Svg.gradientElements (Svg._all_elements doc.elements)).map (fun el =>
          ((el.data.gradient.getD ⟨"", "", ""⟩).color1,
           (el.data.gradient.getD ⟨"", "", ""⟩).color2)) ∧
      ∀ k : Nat,
        k < (Svg.gradientElements (Svg._all_elements doc.elements)).length →
        ((Svg.gradientElements (Svg._all_elements doc.elements)).map
          (fun el => el.data.name.getD "")).Nodup →
        (Svg._create_gradient_defs doc).2
            (((Svg.gradientElements (Svg._all_elements doc.elements)).getD k
              (Element.mk { element_type := "" } [])).data.name.getD "") =
          some ("url(#grad_" ++ toString k ++ ")") ∧
        ∀ fb : String,
          Svg._render_element_fill
              ((Svg.gradientElements (Svg._all_elements doc.elements)).getD k
                (Element.mk { element_type := "" } []))
              (Svg._create_gradient_defs doc).2 fb =
            some ("url(#grad_" ++ toString k ++ ")") := by
  intro doc
  refine ⟨?_, ?_, ?_⟩
  · have h := gradientScan_ids (Svg._all_elements doc.elements) 0
    rw [Svg._create_gradient_defs, h]
    apply List.map_congr_left
    intro k _
    rw [Nat.zero_add]
  · exact gradientScan_colors (Svg._all_elements doc.elements) 0
  · intro k hk hnd
    have hlook := gradientScan_lookup (Svg._all_elements doc.elements) 0 k
      hk hnd
    rw [Nat.zero_add] at hlook
    refine ⟨hlook, ?_⟩
    intro fb
    have hmem : (Svg.gradientElements (Svg._all_elements doc.elements)).getD k
        (Element.mk { element_type := "" } []) ∈
        Svg.gradientElements (Svg._all_elements doc.elements) := by
      rw [List.getD_eq_getElem _ _ hk]
      exact List.getElem_mem hk
    have hprop := (List.mem_filter.mp hmem).2
    have htruthy : optStrTruthy ((Svg.gradientElements
        (Svg._all_elements doc.elements)).getD k
        (Element.mk { element_type := "" } [])).data.name = true := by
      simp only [Bool.and_eq_true] at hprop
      exact hprop.2
    unfold Svg._render_element_fill
    simp only [htruthy, if_true]
    unfold Svg._create_gradient_defs
    rw [hlook]

/-- C9 witness (amended claim): a document with two named gradient
elements `A` and `B` registers `B` under the ordinal URL `url(#grad_1)`,
and `B`'s emitted fill is that URL. -/
theorem C9_gradient_registration_amended_witness :
    (Svg._create_gradient_defs ⟨[
      .element (.mk
        { element_type := "rect", name := some "A",
          gradient := some ⟨"#111111", "#222222", "vertical"⟩ } []),
      .element (.mk
        { element_type := "rect", name := some "B",
          gradient := some ⟨"#333333", "#444444", "vertical"⟩ } [])]⟩).2 "B" =
      some "url(#grad_1)" ∧
    Svg._render_element_fill
      (.mk
        { element_type := "rect", name := some "B",
          gradient := some ⟨"#333333", "#444444", "vertical"⟩ } [])
      (Svg._create_gradient_defs ⟨[
        .element (.mk
          { element_type := "rect", name := some "A",
            gradient := some ⟨"#111111", "#222222", "vertical"⟩ } []),
        .element (.mk
          { element_type := "rect", name := some "B",
            gradient := some ⟨"#333333", "#444444", "vertical"⟩ } [])]⟩).2
      "fallback" = some "url(#grad_1)" := by
  have h := (C9_gradient_registration_amended ⟨[
      .element (.mk
        { element_type := "rect", name := some "A",
          gradient := some ⟨"#111111", "#222222", "vertical"⟩ } []),
      .element (.mk
        { element_type := "rect", name := some "B",
          gradient := some ⟨"#333333", "#444444", "vertical"⟩ } [])]⟩).2.2 1
    (by with_unfolding_all decide) (by with_unfolding_all decide)
  have hel : (Svg.gradientElements (Svg._all_elements
      (Document.elements ⟨[
        .element (.mk
          { element_type := "rect", name := some "A",
            gradient := some ⟨"#111111", "#222222", "vertical"⟩ } []),
        .element (.mk
          { element_type := "rect", name := some "B",
            gradient := some ⟨"#333333", "#444444", "vertical"⟩ } [])]⟩))).getD 1
      (Element.mk { element_type := "" } []) =
      .mk
        { element_type := "rect", name := some "B",
          gradient := some ⟨"#333333", "#444444", "vertical"⟩ } [] := by
    with_unfolding_all rfl
  rw [hel] at h
  have hurl : ("url(#grad_" ++ toString 1 ++ ")") = "url(#grad_1)" := by
    with_unfolding_all rfl
  rw [hurl] at h
  exact ⟨h.1, h.2 "fallback"⟩

/-- C4 witness: `for i from 0 to 20000` (20,001 iterations) fails. -/
theorem C4_loop_safety_ceilings_witness :
    Resolver._n_iters 0 20000 1 > Resolver._MAX_LOOP_ITERATIONS ∧
    exceptIsError
      (Resolver._handle_for (Resolver._resolve_statements 5)
        Resolver.initState "i" (.lit ⟨0, none⟩) (.lit ⟨20000, none⟩) none
        [.element (.mk { element_type := "rect" } [])]) = true := by
  refine ⟨by with_unfolding_all decide, ?_⟩
  exact C4_loop_safety_ceilings.1 (Resolver._resolve_statements 5)
    Resolver.initState "i" (.lit ⟨0, none⟩) (.lit ⟨20000, none⟩) none
    [.element (.mk { element_type := "rect" } [])]
    ⟨0, none⟩ ⟨20000, none⟩ 1 rfl rfl (by with_unfolding_all decide)
    (by with_unfolding_all decide)
